import Mathlib

/-!
Shallow embedding of the amBX OpenRGB driver core
(src/AMBXController.h, src/AMBXController.cpp, src/AMBXControllerDetect.cpp).

Machine integers are modelled as `Nat` with explicit `% 256` wherever the
C++ code stores a wider value into an `unsigned char`.  The libusb calls are
modelled by an explicit environment telling, per attempt, what each call
returns; the observable side effects (claim attempts, interrupt transfers,
interface release, handle close, context exit, sleeps) are recorded in an
event trace.
-/

namespace AMBX

/-- Constants from AMBXController.h. -/
def AMBX_PACKET_HEADER : Nat := 0xA1

def AMBX_SET_COLOR : Nat := 0x03

def AMBX_LIGHT_LEFT : Nat := 0x0B

def AMBX_LIGHT_RIGHT : Nat := 0x1B

def AMBX_LIGHT_WALL_LEFT : Nat := 0x2B

def AMBX_LIGHT_WALL_CENTER : Nat := 0x3B

def AMBX_LIGHT_WALL_RIGHT : Nat := 0x4B

def AMBX_LIGHT_ALL : Nat := 0xFF

/-- The fixed zone-ID vocabulary of AMBXController.h (the five lights plus
the all-lights sentinel). -/
def validZones : List Nat :=
  [AMBX_LIGHT_LEFT, AMBX_LIGHT_RIGHT, AMBX_LIGHT_WALL_LEFT,
   AMBX_LIGHT_WALL_CENTER, AMBX_LIGHT_WALL_RIGHT, AMBX_LIGHT_ALL]

/-- OpenRGB packs an RGB color as `(b << 16) | (g << 8) | r`; modelled on Nat. -/
def ToRGBColor (r g b : Nat) : Nat := r + 256 * g + 65536 * b

/-- Red component of an RGBColor (`color & 0xFF`). -/
def RGBGetRValue (c : Nat) : Nat := c % 256

/-- Green component of an RGBColor (`(color >> 8) & 0xFF`). -/
def RGBGetGValue (c : Nat) : Nat := c / 256 % 256

/-- Blue component of an RGBColor (`(color >> 16) & 0xFF`). -/
def RGBGetBValue (c : Nat) : Nat := c / 65536 % 256

/-- The 6-byte buffer built by AMBXController::SetSingleColor.  `light` is an
`unsigned int` stored into an `unsigned char` slot, hence the `% 256`; the
color components are `unsigned char` parameters, so the `% 256` models the
conversion at the call boundary. -/
def singleColorPacket (light r g b : Nat) : List Nat :=
  [AMBX_PACKET_HEADER, light % 256, AMBX_SET_COLOR, r % 256, g % 256, b % 256]

/-- The static multi-command header table of AMBXController::SetMultipleColors. -/
def multi_headers : List Nat := [0xA4, 0xC4, 0xE4, 0x04, 0x24, 0x44, 0x64, 0x84]

/-- One 5-byte light group of a batch packet:
light ID, 0x03, R, G, B (AMBXController.cpp lines 436-445). -/
def batchGroup (light color : Nat) : List Nat :=
  [light % 256, AMBX_SET_COLOR, RGBGetRValue color, RGBGetGValue color, RGBGetBValue color]

/-- Bytes 1.. of a batch packet: the concatenation of the groups for
indices 0, 1, ..., count-1, in input order. -/
def batchBody (lights colors : Nat → Nat) : Nat → List Nat
  | 0 => []
  | Nat.succ n => batchBody lights colors n ++ batchGroup (lights n) (colors n)

/-- The full batch packet built by SetMultipleColors for `count ≥ 2`:
rotating header byte (indexed by the process-wide static `header_index`)
followed by the per-light groups. -/
def batchPacket (hidx : Nat) (lights colors : Nat → Nat) (count : Nat) : List Nat :=
  multi_headers.getD hidx 0 :: batchBody lights colors count

/-- Session state: the four data members of AMBXController that drive
control flow.  Pointers are abstracted to "non-null" booleans. -/
structure SessionState where
  usb_context : Bool
  dev_handle : Bool
  session_init : Bool
  interface_claimed : Bool
  deriving DecidableEq, Repr

/-- AMBXController::IsInitialized. -/
def IsInitialized (s : SessionState) : Bool := s.session_init

/-- Observable side effects of the driver, in program order. -/
inductive Event where
  | claimAttempt
  | delayMs (n : Nat)
  | transferAttempt (packet : List Nat) (size : Nat)
  | releaseInterface
  | closeHandle
  | exitContext
  | lightsOffAttempt
  deriving DecidableEq, Repr

/-- Result of ClaimInterface: return value, updated state, trace. -/
structure ClaimResult where
  ok : Bool
  st : SessionState
  trace : List Event
  deriving Repr

/-- The retry loop of AMBXController::ClaimInterface (lines 191-208):
`env i` is the success of the i-th `libusb_claim_interface` call; each
failed attempt is followed by a 20 ms sleep. -/
def claimLoop (env : Nat → Bool) : Nat → Nat → Bool × List Event
  | _, 0 => (false, [])
  | i, Nat.succ fuel =>
    if env i then (true, [Event.claimAttempt])
    else
      let rest := claimLoop env (i + 1) fuel
      (rest.1, Event.claimAttempt :: Event.delayMs 20 :: rest.2)

/-- AMBXController::ClaimInterface (lines 177-214). -/
def ClaimInterface (env : Nat → Bool) (s : SessionState) : ClaimResult :=
  if !(s.session_init && s.dev_handle) then ⟨false, s, []⟩
  else if s.interface_claimed then ⟨true, s, []⟩
  else
    let r := claimLoop env 0 3
    ⟨r.1, { s with interface_claimed := r.1 }, r.2⟩

/-- AMBXController::ReleaseInterface (lines 225-234).  The C++ code ignores
the return value of `libusb_release_interface`; the ignored `rel_ok`
parameter records that a release failure changes nothing. -/
def ReleaseInterface (rel_ok : Bool) (s : SessionState) : SessionState × List Event :=
  if !(s.session_init && s.dev_handle && s.interface_claimed) then (s, [])
  else ({ s with interface_claimed := false }, [Event.releaseInterface])

/-- Environment for one SendPacket call: claim results, per-attempt transfer
result (`libusb_interrupt_transfer` returning LIBUSB_SUCCESS) and
per-attempt `actual_length`, and the ignored release result. -/
structure SendEnv where
  claim : Nat → Bool
  res : Nat → Bool
  actual : Nat → Nat
  release_ok : Bool

/-- Terminal result/actual of the transfer retry loop plus its trace. -/
structure TransferOut where
  res : Bool
  act : Nat
  trace : List Event
  deriving Repr

/-- The transfer retry loop of AMBXController::SendPacket (lines 268-279):
break when the call succeeds and moved exactly `size` bytes, otherwise
sleep `10*(attempt+1)` ms and retry, keeping the last attempt's values. -/
def transferLoop (env : SendEnv) (packet : List Nat) (size : Nat) :
    Nat → Nat → TransferOut
  | _, 0 => ⟨false, 0, []⟩
  | i, Nat.succ fuel =>
    if env.res i && env.actual i == size then
      ⟨env.res i, env.actual i, [Event.transferAttempt packet size]⟩
    else if fuel == 0 then
      ⟨env.res i, env.actual i,
        [Event.transferAttempt packet size, Event.delayMs (10 * (i + 1))]⟩
    else
      let rest := transferLoop env packet size (i + 1) fuel
      ⟨rest.res, rest.act,
        Event.transferAttempt packet size :: Event.delayMs (10 * (i + 1)) :: rest.trace⟩

/-- How one SendPacket call is reported (via its error logging branches,
lines 249-288): device not ready, claim failed, transfer error, partial
transfer (success reported but fewer bytes moved), or clean success. -/
inductive SendOutcome where
  | notReady
  | claimFailed
  | transportError
  | truncated
  | success
  deriving DecidableEq, Repr

/-- Result of SendPacket: updated state, trace, reported outcome. -/
structure SendResult where
  st : SessionState
  trace : List Event
  outcome : SendOutcome
  deriving Repr

/-- AMBXController::SendPacket (lines 247-292): guard, claim (per-operation
policy), up to 3 transfer attempts, error classification, release. -/
def SendPacket (env : SendEnv) (s : SessionState) (packet : List Nat)
    (size : Nat) : SendResult :=
  if !(s.session_init && s.dev_handle) then ⟨s, [], SendOutcome.notReady⟩
  else
    let c := ClaimInterface env.claim s
    if !c.ok then ⟨c.st, c.trace, SendOutcome.claimFailed⟩
    else
      let t := transferLoop env packet size 0 3
      let outcome :=
        if !t.res then SendOutcome.transportError
        else if t.act ≠ size then SendOutcome.truncated
        else SendOutcome.success
      let r := ReleaseInterface env.release_ok c.st
      ⟨r.1, c.trace ++ t.trace ++ r.2, outcome⟩

/-- Result of a color-setting operation: updated session state, updated
process-wide `header_index`, the packets the codec built (in order), and
the event trace. -/
structure OpResult where
  st : SessionState
  hidx : Nat
  built : List (List Nat)
  trace : List Event
  deriving Repr

/-- AMBXController::SetSingleColor (lines 308-325): build the 6-byte buffer,
send it, then sleep 2 ms.  The static header counter is untouched. -/
def SetSingleColorOp (env : SendEnv) (s : SessionState) (hidx : Nat)
    (light r g b : Nat) : OpResult :=
  let pkt := singleColorPacket light r g b
  let sr := SendPacket env s pkt 6
  ⟨sr.st, hidx, [pkt], sr.trace ++ [Event.delayMs 2]⟩

/-- AMBXController::SetLEDColor (lines 364-367): unpack the RGBColor and
delegate to SetSingleColor. -/
def SetLEDColorOp (env : SendEnv) (s : SessionState) (hidx : Nat)
    (led color : Nat) : OpResult :=
  SetSingleColorOp env s hidx led
    (RGBGetRValue color) (RGBGetGValue color) (RGBGetBValue color)

/-- AMBXController::SetMultipleColors (lines 407-455): reject count 0 or
count > 5; delegate count 1 to the single-light path; otherwise build the
batch packet with the rotating header, send it, advance the process-wide
header counter, and sleep 5 ms. -/
def SetMultipleColorsOp (env : SendEnv) (s : SessionState) (hidx : Nat)
    (lights colors : Nat → Nat) (count : Nat) : OpResult :=
  if count = 0 ∨ 5 < count then ⟨s, hidx, [], []⟩
  else if count = 1 then SetLEDColorOp env s hidx (lights 0) (colors 0)
  else
    let pkt := batchPacket hidx lights colors count
    let sr := SendPacket env s pkt (1 + count * 5)
    ⟨sr.st, (hidx + 1) % 8, [pkt], sr.trace ++ [Event.delayMs 5]⟩

/-- The chunking loop of AMBXController::SetLEDColors (lines 381-392):
process lights in batches of at most 5, starting at offset `i`; `fuel`
bounds the recursion (the loop advances `i` by 5 each round). -/
def ledColorsGo (env : SendEnv) (leds colors : Nat → Nat) (count : Nat) :
    SessionState → Nat → Nat → Nat → OpResult
  | s, hidx, _, 0 => ⟨s, hidx, [], []⟩
  | s, hidx, i, Nat.succ fuel =>
    if count ≤ i then ⟨s, hidx, [], []⟩
    else
      let bc := if i + 5 ≤ count then 5 else count - i
      let r := SetMultipleColorsOp env s hidx
        (fun j => leds (i + j)) (fun j => colors (i + j)) bc
      let rest := ledColorsGo env leds colors count r.st r.hidx (i + 5) fuel
      ⟨rest.st, rest.hidx, r.built ++ rest.built, r.trace ++ rest.trace⟩

/-- AMBXController::SetLEDColors (lines 381-392). -/
def SetLEDColorsOp (env : SendEnv) (s : SessionState) (hidx : Nat)
    (leds colors : Nat → Nat) (count : Nat) : OpResult :=
  ledColorsGo env leds colors count s hidx 0 count

/-- The five zone IDs of AMBXController::SetAllColors (lines 339-346). -/
def allLeds : Nat → Nat :=
  fun i => [AMBX_LIGHT_LEFT, AMBX_LIGHT_RIGHT, AMBX_LIGHT_WALL_LEFT,
            AMBX_LIGHT_WALL_CENTER, AMBX_LIGHT_WALL_RIGHT].getD i 0

/-- AMBXController::SetAllColors (lines 337-351): one SetLEDColors call over
the five zones with identical colors. -/
def SetAllColorsOp (env : SendEnv) (s : SessionState) (hidx : Nat)
    (color : Nat) : OpResult :=
  SetLEDColorsOp env s hidx allLeds (fun _ => color) 5

/-- Environment for the constructor: success of `libusb_init`, of
`libusb_get_device_list`, whether a device with matching VID/PID is
present, success of `libusb_open` on it, and the SendEnv used by the
initial lights-off. -/
structure CtorEnv where
  init_ok : Bool
  list_ok : Bool
  device_present : Bool
  open_ok : Bool
  send : SendEnv

/-- AMBXController::AMBXController (lines 16-111): init the context, list
devices, open the first VID/PID match, mark the session initialized on open
success (the interface is NOT claimed here), then best-effort lights-off. -/
def AMBXController_ctor (env : CtorEnv) (hidx : Nat) : OpResult :=
  let s0 : SessionState := ⟨false, false, false, false⟩
  if !env.init_ok then ⟨s0, hidx, [], []⟩
  else
    let s1 : SessionState := { s0 with usb_context := true }
    if !env.list_ok then ⟨s1, hidx, [], []⟩
    else if !(env.device_present && env.open_ok) then ⟨s1, hidx, [], []⟩
    else
      let s2 : SessionState := { s1 with dev_handle := true, session_init := true }
      SetAllColorsOp env.send s2 hidx (ToRGBColor 0 0 0)

/-- Environment for the destructor: whether the lights-off call throws
(e.g. `new` failing before SendPacket runs), the SendEnv for the
lights-off transfer, and the ignored result of the destructor's own
`libusb_release_interface`. -/
structure DtorEnv where
  lightsOffThrows : Bool
  send : SendEnv
  release_ok : Bool

/-- AMBXController::~AMBXController (lines 113-150): best-effort lights-off
with all exceptions swallowed, then release the interface if claimed, close
the handle if open, and exit the context if initialized — three independent
steps. -/
def AMBXController_dtor (env : DtorEnv) (s : SessionState) (hidx : Nat) : OpResult :=
  let p1 : SessionState × Nat × List Event :=
    if s.session_init then
      if env.lightsOffThrows then (s, hidx, [Event.lightsOffAttempt])
      else
        let r := SetAllColorsOp env.send s hidx (ToRGBColor 0 0 0)
        (r.st, r.hidx, Event.lightsOffAttempt :: r.trace)
    else (s, hidx, [])
  let s1 := p1.1
  let p2 : SessionState × List Event :=
    if s1.dev_handle then
      let q : SessionState × List Event :=
        if s1.interface_claimed then
          ({ s1 with interface_claimed := false }, [Event.releaseInterface])
        else (s1, [])
      ({ q.1 with dev_handle := false }, q.2 ++ [Event.closeHandle])
    else (s1, [])
  let s2 := p2.1
  let p3 : SessionState × List Event :=
    if s2.usb_context then ({ s2 with usb_context := false }, [Event.exitContext])
    else (s2, [])
  ⟨p3.1, p1.2.1, [], p1.2.2 ++ p2.2 ++ p3.2⟩

/-- DetectAMBXControllers registers a controller exactly when the freshly
constructed AMBXController reports IsInitialized
(AMBXControllerDetect.cpp lines 89-106). -/
def DetectRegisters (s : SessionState) : Bool := IsInitialized s

/-- The session invariant of the spec's DeviceSession entity: a claimed
interface implies a non-null handle and an initialized session. -/
def SessionInv (s : SessionState) : Prop :=
  s.interface_claimed = true → (s.dev_handle = true ∧ s.session_init = true)

/-- States reachable through the driver's operations, starting from any
constructor run. -/
inductive Reachable : SessionState → Prop where
  | ctor (env : CtorEnv) (hidx : Nat) : Reachable (AMBXController_ctor env hidx).st
  | claim (env : Nat → Bool) (s : SessionState) :
      Reachable s → Reachable (ClaimInterface env s).st
  | release (rel_ok : Bool) (s : SessionState) :
      Reachable s → Reachable (ReleaseInterface rel_ok s).1
  | send (env : SendEnv) (s : SessionState) (packet : List Nat) (size : Nat) :
      Reachable s → Reachable (SendPacket env s packet size).st
  | single (env : SendEnv) (s : SessionState) (hidx light r g b : Nat) :
      Reachable s → Reachable (SetSingleColorOp env s hidx light r g b).st
  | multi (env : SendEnv) (s : SessionState) (hidx : Nat)
      (lights colors : Nat → Nat) (count : Nat) :
      Reachable s → Reachable (SetMultipleColorsOp env s hidx lights colors count).st
  | leds (env : SendEnv) (s : SessionState) (hidx : Nat)
      (leds colors : Nat → Nat) (count : Nat) :
      Reachable s → Reachable (SetLEDColorsOp env s hidx leds colors count).st
  | allc (env : SendEnv) (s : SessionState) (hidx color : Nat) :
      Reachable s → Reachable (SetAllColorsOp env s hidx color).st
  | dtor (env : DtorEnv) (s : SessionState) (hidx : Nat) :
      Reachable s → Reachable (AMBXController_dtor env s hidx).st

/-- Session state right after a successful open: context up, handle open,
session initialized, interface not claimed. -/
def sReady : SessionState := ⟨true, true, true, false⟩

/-- Transport environment in which every claim attempt reports busy and
every transfer fails. -/
def envBusy : SendEnv := ⟨fun _ => false, fun _ => false, fun _ => 0, true⟩

/-- Transport environment in which claim and transfer always succeed and a
6-byte transfer moves all 6 bytes. -/
def envOkSend : SendEnv := ⟨fun _ => true, fun _ => true, fun _ => 6, true⟩

/-- Constructor environment of the C1 scenario: context init succeeds,
device list succeeds, a matching device is present, open succeeds, but
every interface-claim attempt reports busy. -/
def envC1 : CtorEnv := ⟨true, true, true, true, envBusy⟩

/-! ### Helper lemmas -/

theorem RGBGetRValue_lt (c : Nat) : RGBGetRValue c < 256 :=
  Nat.mod_lt _ (by norm_num)

theorem RGBGetGValue_lt (c : Nat) : RGBGetGValue c < 256 :=
  Nat.mod_lt _ (by norm_num)

theorem RGBGetBValue_lt (c : Nat) : RGBGetBValue c < 256 :=
  Nat.mod_lt _ (by norm_num)

theorem RGBGetRValue_mod (c : Nat) : RGBGetRValue c % 256 = RGBGetRValue c :=
  Nat.mod_eq_of_lt (RGBGetRValue_lt c)

theorem RGBGetGValue_mod (c : Nat) : RGBGetGValue c % 256 = RGBGetGValue c :=
  Nat.mod_eq_of_lt (RGBGetGValue_lt c)

theorem RGBGetBValue_mod (c : Nat) : RGBGetBValue c % 256 = RGBGetBValue c :=
  Nat.mod_eq_of_lt (RGBGetBValue_lt c)

/-! ### C5: claim retry policy -/

/-- C5.  When every claim attempt reports busy, ClaimInterface makes exactly
3 claim attempts, each followed by a non-zero (20 ms) delay, and returns
false without a 4th attempt, leaving the interface unclaimed; if any of the
3 attempts succeeds it returns true and marks the interface claimed. -/
theorem claim_retry_policy (env : Nat → Bool) (s : SessionState)
    (h1 : s.session_init = true) (h2 : s.dev_handle = true)
    (h3 : s.interface_claimed = false) :
    ((∀ i, i < 3 → env i = false) →
      (ClaimInterface env s).ok = false
      ∧ (ClaimInterface env s).st.interface_claimed = false
      ∧ (ClaimInterface env s).trace =
          [Event.claimAttempt, Event.delayMs 20, Event.claimAttempt,
           Event.delayMs 20, Event.claimAttempt, Event.delayMs 20]
      ∧ (ClaimInterface env s).trace.count Event.claimAttempt = 3)
    ∧ ((∃ i, i < 3 ∧ env i = true) →
      (ClaimInterface env s).ok = true
      ∧ (ClaimInterface env s).st.interface_claimed = true) := by
  constructor
  · intro hall
    have e0 := hall 0 (by norm_num)
    have e1 := hall 1 (by norm_num)
    have e2 := hall 2 (by norm_num)
    simp [ClaimInterface, h1, h2, h3, claimLoop, e0, e1, e2, List.count_cons]
  · rintro ⟨i, hi, htrue⟩
    by_cases g0 : env 0 = true
    · simp [ClaimInterface, h1, h2, h3, claimLoop, g0]
    · have g0' : env 0 = false := by simpa using g0
      by_cases g1 : env 1 = true
      · simp [ClaimInterface, h1, h2, h3, claimLoop, g0', g1]
      · have g1' : env 1 = false := by simpa using g1
        by_cases g2 : env 2 = true
        · simp [ClaimInterface, h1, h2, h3, claimLoop, g0', g1', g2]
        · exfalso
          have g2' : env 2 = false := by simpa using g2
          interval_cases i <;> simp_all

/-- Witness for claim_retry_policy at a concrete always-busy environment. -/
theorem claim_retry_policy_witness :
    (ClaimInterface (fun _ => false) sReady).ok = false
    ∧ (ClaimInterface (fun _ => true) sReady).ok = true :=
  ⟨((claim_retry_policy (fun _ => false) sReady rfl rfl rfl).1
      (fun _ _ => rfl)).1,
   ((claim_retry_policy (fun _ => true) sReady rfl rfl rfl).2
      ⟨0, by norm_num, rfl⟩).1⟩

/-! ### C7: single-zone packet layout -/

/-- C7.  For every zone identifier and RGB triple (all byte-sized), the
single-zone path builds exactly the 6 bytes [0xA1, zone, 0x03, r, g, b],
with the constant header 0xA1 in byte 0. -/
theorem single_packet_layout (env : SendEnv) (s : SessionState)
    (hidx light r g b : Nat) (hl : light < 256) (hr : r < 256)
    (hg : g < 256) (hb : b < 256) :
    (SetSingleColorOp env s hidx light r g b).built =
      [[AMBX_PACKET_HEADER, light, AMBX_SET_COLOR, r, g, b]]
    ∧ (singleColorPacket light r g b).length = 6
    ∧ (singleColorPacket light r g b).headI = AMBX_PACKET_HEADER := by
  refine ⟨?_, by simp [singleColorPacket], by simp [singleColorPacket]⟩
  simp [SetSingleColorOp, singleColorPacket, Nat.mod_eq_of_lt hl,
    Nat.mod_eq_of_lt hr, Nat.mod_eq_of_lt hg, Nat.mod_eq_of_lt hb]

/-- Witness for single_packet_layout at zone 0x0B, color (255, 0, 0). -/
theorem single_packet_layout_witness :
    (SetSingleColorOp envOkSend sReady 0 0x0B 255 0 0).built =
      [[AMBX_PACKET_HEADER, 0x0B, AMBX_SET_COLOR, 255, 0, 0]] :=
  (single_packet_layout envOkSend sReady 0 0x0B 255 0 0
    (by norm_num) (by norm_num) (by norm_num) (by norm_num)).1

/-! ### C8: batch rejects count 0 and count > 5 -/

/-- C8.  For count 0 and for every count above 5, SetMultipleColors returns
immediately: state and header counter unchanged, no packet built, and an
empty trace (so no transfer attempted). -/
theorem batch_rejects_bad_count (env : SendEnv) (s : SessionState)
    (hidx : Nat) (lights colors : Nat → Nat) (count : Nat)
    (h : count = 0 ∨ 5 < count) :
    SetMultipleColorsOp env s hidx lights colors count =
      ⟨s, hidx, [], []⟩ := by
  simp [SetMultipleColorsOp, h]

/-- Witness for batch_rejects_bad_count at count = 6. -/
theorem batch_rejects_bad_count_witness :
    SetMultipleColorsOp envOkSend sReady 0 (fun _ => 0x0B) (fun _ => 0) 6 =
      ⟨sReady, 0, [], []⟩ :=
  batch_rejects_bad_count envOkSend sReady 0 (fun _ => 0x0B) (fun _ => 0) 6
    (Or.inr (by norm_num))

/-! ### C3: batch packet layout -/

/-- Branch resolution for SetMultipleColors with 2 ≤ count ≤ 5: the batch
path is taken. -/
theorem SetMultipleColorsOp_batch (env : SendEnv) (s : SessionState)
    (hidx : Nat) (lights colors : Nat → Nat) (count : Nat)
    (h2 : 2 ≤ count) (h5 : count ≤ 5) :
    SetMultipleColorsOp env s hidx lights colors count =
      ⟨(SendPacket env s (batchPacket hidx lights colors count)
          (1 + count * 5)).st,
       (hidx + 1) % 8,
       [batchPacket hidx lights colors count],
       (SendPacket env s (batchPacket hidx lights colors count)
          (1 + count * 5)).trace ++ [Event.delayMs 5]⟩ := by
  have hne : ¬(count = 0 ∨ 5 < count) := by omega
  have hne1 : ¬count = 1 := by omega
  simp [SetMultipleColorsOp, hne, hne1]

theorem batchBody_length (lights colors : Nat → Nat) (n : Nat) :
    (batchBody lights colors n).length = 5 * n := by
  induction n with
  | zero => simp [batchBody]
  | succ n ih => simp [batchBody, batchGroup, ih]; omega

theorem batchBody_group (lights colors : Nat → Nat) (n i : Nat) (hi : i < n) :
    ((batchBody lights colors n).drop (5 * i)).take 5 =
      batchGroup (lights i) (colors i) := by
  induction n with
  | zero => omega
  | succ n ih =>
    rcases Nat.lt_succ_iff_lt_or_eq.mp hi with hlt | heq
    · have hle : 5 * i ≤ (batchBody lights colors n).length := by
        rw [batchBody_length]; omega
      have hrem : 5 ≤ ((batchBody lights colors n).drop (5 * i)).length := by
        rw [List.length_drop, batchBody_length]; omega
      rw [batchBody, List.drop_append_of_le_length hle,
        List.take_append_of_le_length hrem, ih hlt]
    · subst heq
      have hlen : 5 * i = (batchBody lights colors i).length :=
        (batchBody_length lights colors i).symm
      rw [batchBody, hlen, List.drop_left]
      simp [batchGroup]

/-- C3.  For every count in 1..5 and byte-sized zone IDs, SetMultipleColors
builds exactly one packet of 1 + 5*count bytes whose i-th 5-byte group
(at byte 1 + 5*i) is [zone_i, 0x03, R_i, G_i, B_i] in input order (count 1
goes through the single-light path, whose packet has the same layout). -/
theorem batch_packet_layout (env : SendEnv) (s : SessionState) (hidx : Nat)
    (lights colors : Nat → Nat) (count : Nat)
    (h1 : 1 ≤ count) (h5 : count ≤ 5)
    (hz : ∀ i, i < count → lights i < 256) :
    ∃ pkt, (SetMultipleColorsOp env s hidx lights colors count).built = [pkt]
      ∧ pkt.length = 1 + 5 * count
      ∧ ∀ i, i < count → (pkt.drop (1 + 5 * i)).take 5 =
          [lights i, AMBX_SET_COLOR, RGBGetRValue (colors i),
           RGBGetGValue (colors i), RGBGetBValue (colors i)] := by
  by_cases hone : count = 1
  · subst hone
    refine ⟨singleColorPacket (lights 0) (RGBGetRValue (colors 0))
      (RGBGetGValue (colors 0)) (RGBGetBValue (colors 0)), ?_, ?_, ?_⟩
    · simp [SetMultipleColorsOp, SetLEDColorOp, SetSingleColorOp]
    · simp [singleColorPacket]
    · intro i hi
      have hi0 : i = 0 := by omega
      subst hi0
      simp [singleColorPacket, Nat.mod_eq_of_lt (hz 0 (by norm_num)),
        RGBGetRValue_mod, RGBGetGValue_mod, RGBGetBValue_mod]
  · have h2 : 2 ≤ count := by omega
    refine ⟨batchPacket hidx lights colors count, ?_, ?_, ?_⟩
    · rw [SetMultipleColorsOp_batch env s hidx lights colors count h2 h5]
    · simp [batchPacket, batchBody_length]; omega
    · intro i hi
      have hstep : (1 + 5 * i) = (5 * i) + 1 := by omega
      rw [batchPacket, hstep, List.drop_succ_cons,
        batchBody_group lights colors count i hi]
      simp [batchGroup, Nat.mod_eq_of_lt (hz i hi), RGBGetRValue_mod,
        RGBGetGValue_mod, RGBGetBValue_mod]

/-- Witness for batch_packet_layout: three zones, three colors. -/
theorem batch_packet_layout_witness :
    ∃ pkt, (SetMultipleColorsOp envOkSend sReady 0
        (fun i => [0x0B, 0x1B, 0x2B].getD i 0)
        (fun i => [ToRGBColor 255 0 0, ToRGBColor 0 255 0,
                   ToRGBColor 0 0 255].getD i 0) 3).built = [pkt]
      ∧ pkt.length = 1 + 5 * 3 := by
  obtain ⟨pkt, hb, hl, _⟩ := batch_packet_layout envOkSend sReady 0
    (fun i => [0x0B, 0x1B, 0x2B].getD i 0)
    (fun i => [ToRGBColor 255 0 0, ToRGBColor 0 255 0,
               ToRGBColor 0 0 255].getD i 0) 3
    (by norm_num) (by norm_num)
    (by intro i hi; interval_cases i <;> simp [ToRGBColor])
  exact ⟨pkt, hb, hl⟩

/-! ### C10: rotating batch header -/

/-- C10.  For count in 2..5 the batch packet's byte 0 is drawn from the
8-entry header table at the current process-wide counter, the counter
advances by one mod 8, and, with the same inputs, the next construction's
byte 0 differs from this one's; count 1 instead takes the single-light path
with the constant header 0xA1. -/
theorem batch_header_rotation (env env2 : SendEnv) (s s2 : SessionState)
    (hidx : Nat) (lights colors : Nat → Nat) (count : Nat)
    (hh : hidx < 8) (hc2 : 2 ≤ count) (hc5 : count ≤ 5) :
    (SetMultipleColorsOp env s hidx lights colors count).built =
      [batchPacket hidx lights colors count]
    ∧ (SetMultipleColorsOp env s hidx lights colors count).hidx = (hidx + 1) % 8
    ∧ (batchPacket hidx lights colors count).headI ∈ multi_headers
    ∧ (SetMultipleColorsOp env2 s2 ((hidx + 1) % 8) lights colors count).built =
        [batchPacket ((hidx + 1) % 8) lights colors count]
    ∧ (batchPacket ((hidx + 1) % 8) lights colors count).headI ≠
        (batchPacket hidx lights colors count).headI
    ∧ (SetMultipleColorsOp env s hidx lights colors 1).built =
        [singleColorPacket (lights 0) (RGBGetRValue (colors 0))
          (RGBGetGValue (colors 0)) (RGBGetBValue (colors 0))]
    ∧ (singleColorPacket (lights 0) (RGBGetRValue (colors 0))
        (RGBGetGValue (colors 0)) (RGBGetBValue (colors 0))).headI =
        AMBX_PACKET_HEADER := by
  refine ⟨?_, ?_, ?_, ?_, ?_, ?_, ?_⟩
  · rw [SetMultipleColorsOp_batch env s hidx lights colors count hc2 hc5]
  · rw [SetMultipleColorsOp_batch env s hidx lights colors count hc2 hc5]
  · simp only [batchPacket, List.headI]
    interval_cases hidx <;> simp [multi_headers]
  · rw [SetMultipleColorsOp_batch env2 s2 ((hidx + 1) % 8) lights colors count
      hc2 hc5]
  · simp only [batchPacket, List.headI]
    interval_cases hidx <;> simp [multi_headers]
  · simp [SetMultipleColorsOp, SetLEDColorOp, SetSingleColorOp]
  · simp [singleColorPacket]

/-- Witness for batch_header_rotation at header index 7 (wrap-around) and
count 5. -/
theorem batch_header_rotation_witness :
    (SetMultipleColorsOp envOkSend sReady 7 allLeds (fun _ => 0) 5).hidx = 0
    ∧ (batchPacket 0 allLeds (fun _ => 0) 5).headI ≠
        (batchPacket 7 allLeds (fun _ => 0) 5).headI := by
  obtain ⟨_, h2, _, _, h5, _, _⟩ := batch_header_rotation envOkSend envOkSend
    sReady sReady 7 allLeds (fun _ => 0) 5 (by norm_num) (by norm_num)
    (by norm_num)
  exact ⟨h2, h5⟩

/-! ### C6: send outcome classification -/

/-- Transfer environment whose calls always report success but move 0
bytes. -/
def envShortXfer : SendEnv := ⟨fun _ => true, fun _ => true, fun _ => 0, true⟩

/-- Session state with the interface currently claimed. -/
def sClaimed : SessionState := ⟨true, true, true, true⟩

theorem transferLoop_success_exists (env : SendEnv) (packet : List Nat)
    (size : Nat) : ∀ fuel i,
    (transferLoop env packet size i fuel).res = true →
    (transferLoop env packet size i fuel).act = size →
    ∃ j, i ≤ j ∧ j < i + fuel ∧ env.res j = true ∧ env.actual j = size := by
  intro fuel
  induction fuel with
  | zero => intro i hres _; simp [transferLoop] at hres
  | succ fuel ih =>
    intro i hres hact
    by_cases hc : (env.res i && env.actual i == size) = true
    · simp only [Bool.and_eq_true, beq_iff_eq] at hc
      exact ⟨i, Nat.le_refl i, by omega, hc.1, hc.2⟩
    · by_cases hf : fuel = 0
      · subst hf
        rw [transferLoop, if_neg hc] at hres hact
        simp at hres hact
        exact absurd (by simp [hres, hact] : (env.res i && env.actual i == size) = true) hc
      · have hf' : (fuel == 0) = false := by simp [hf]
        rw [transferLoop, if_neg hc, hf'] at hres hact
        simp at hres hact
        obtain ⟨j, hj1, hj2, hj3, hj4⟩ := ih (i + 1) hres hact
        exact ⟨j, by omega, by omega, hj3, hj4⟩

theorem transferLoop_partial (env : SendEnv) (packet : List Nat) (size : Nat)
    (hres : ∀ j, env.res j = true) (hact : ∀ j, env.actual j ≠ size) :
    ∀ fuel i, 1 ≤ fuel →
    (transferLoop env packet size i fuel).res = true ∧
    (transferLoop env packet size i fuel).act ≠ size := by
  intro fuel
  induction fuel with
  | zero => intro i h; omega
  | succ fuel ih =>
    intro i _
    have hc : (env.res i && env.actual i == size) = false := by
      simp [hres i, hact i]
    by_cases hf : fuel = 0
    · subst hf
      rw [transferLoop, if_neg (by simp [hc])]
      simp [hres i, hact i]
    · have hf' : (fuel == 0) = false := by simp [hf]
      rw [transferLoop, if_neg (by simp [hc]), hf']
      simpa using ih (i + 1) (by omega)

/-- C6.  SendPacket reports success only when some transfer call reported
success AND moved exactly the requested number of bytes; when every call
reports success but moves fewer bytes than requested, the outcome is the
partial-transfer kind, which is distinct from both success and the
transport-error kind. -/
theorem send_success_and_truncation (env : SendEnv) (s : SessionState)
    (packet : List Nat) (size : Nat) :
    ((SendPacket env s packet size).outcome = SendOutcome.success →
      ∃ j, j < 3 ∧ env.res j = true ∧ env.actual j = size)
    ∧ (s.session_init = true → s.dev_handle = true →
        s.interface_claimed = true →
        (∀ j, env.res j = true) → (∀ j, env.actual j < size) →
        (SendPacket env s packet size).outcome = SendOutcome.truncated)
    ∧ SendOutcome.truncated ≠ SendOutcome.success
    ∧ SendOutcome.truncated ≠ SendOutcome.transportError := by
  refine ⟨?_, ?_, by simp, by simp⟩
  · intro hsucc
    by_cases hinit : (s.session_init && s.dev_handle) = true
    · by_cases hok : (ClaimInterface env.claim s).ok = true
      · simp only [SendPacket, hinit, Bool.not_true, Bool.false_eq_true,
          if_false, hok, if_true] at hsucc
        by_cases htr : (transferLoop env packet size 0 3).res = true
        · by_cases hta : (transferLoop env packet size 0 3).act = size
          · obtain ⟨j, _, hj2, hj3, hj4⟩ :=
              transferLoop_success_exists env packet size 3 0 htr hta
            exact ⟨j, by omega, hj3, hj4⟩
          · simp [htr, hta] at hsucc
        · simp [htr] at hsucc
      · simp [SendPacket, hinit, hok] at hsucc
    · simp [SendPacket, hinit] at hsucc
  · intro h1 h2 h3 hres hact
    have hinit : (s.session_init && s.dev_handle) = true := by simp [h1, h2]
    have hclaim : ClaimInterface env.claim s = ⟨true, s, []⟩ := by
      simp [ClaimInterface, h1, h2, h3]
    have hp := transferLoop_partial env packet size hres
      (fun j => Nat.ne_of_lt (hact j)) 3 0 (by norm_num)
    simp [SendPacket, hinit, hclaim, hp.1, hp.2]

/-- Witness for send_success_and_truncation: transfers that report success
but move 0 of 6 bytes yield the partial-transfer outcome. -/
theorem send_success_and_truncation_witness :
    (SendPacket envShortXfer sClaimed (singleColorPacket 0x0B 255 0 0) 6).outcome
      = SendOutcome.truncated :=
  (send_success_and_truncation envShortXfer sClaimed
      (singleColorPacket 0x0B 255 0 0) 6).2.1
    rfl rfl rfl (fun _ => rfl) (fun _ => by norm_num [envShortXfer])

/-! ### C2: zone identifiers are not validated -/

theorem transferAttempt_mem_transferLoop (env : SendEnv) (packet : List Nat)
    (size : Nat) : ∀ fuel i, 1 ≤ fuel →
    Event.transferAttempt packet size ∈
      (transferLoop env packet size i fuel).trace := by
  intro fuel
  match fuel with
  | 0 => intro i h; omega
  | Nat.succ f =>
    intro i _
    rw [transferLoop]
    split
    · simp
    · split <;> simp

/-- Counterexample to C2: zone 0x00 is outside the fixed vocabulary, yet
SetSingleColor builds the packet and the transport performs a transfer with
zone byte 0x00 (claim succeeding). -/
theorem invalid_zone_reaches_transport_cex :
    (0 : Nat) ∉ validZones
    ∧ Event.transferAttempt (singleColorPacket 0 255 0 0) 6 ∈
        (SetSingleColorOp envOkSend sReady 0 0 255 0 0).trace := by
  decide

/-- C2 amended.  Neither path validates the zone identifier: for every zone
value (valid or not) the single path builds and forwards its 6-byte packet,
the batch path (count 2..5) builds and forwards its batch packet, and when
the session is ready and a claim succeeds the single path's packet reaches
an actual transfer attempt. -/
theorem no_zone_validation (env : SendEnv) (s : SessionState)
    (hidx hidx2 light r g b : Nat) (lights colors : Nat → Nat) (count : Nat)
    (hc2 : 2 ≤ count) (hc5 : count ≤ 5) :
    (SetSingleColorOp env s hidx light r g b).built =
      [singleColorPacket light r g b]
    ∧ (SetMultipleColorsOp env s hidx2 lights colors count).built =
        [batchPacket hidx2 lights colors count]
    ∧ (s.session_init = true → s.dev_handle = true → env.claim 0 = true →
        Event.transferAttempt (singleColorPacket light r g b) 6 ∈
          (SetSingleColorOp env s hidx light r g b).trace) := by
  refine ⟨by simp [SetSingleColorOp], ?_, ?_⟩
  · rw [SetMultipleColorsOp_batch env s hidx2 lights colors count hc2 hc5]
  · intro h1 h2 hcl0
    have hok : (ClaimInterface env.claim s).ok = true := by
      by_cases h3 : s.interface_claimed = true
      · simp [ClaimInterface, h1, h2, h3]
      · have h3' : s.interface_claimed = false := by simpa using h3
        simp [ClaimInterface, h1, h2, h3', claimLoop, hcl0]
    have hinit : (s.session_init && s.dev_handle) = true := by simp [h1, h2]
    have hmem := transferAttempt_mem_transferLoop env
      (singleColorPacket light r g b) 6 3 0 (by norm_num)
    simp [SetSingleColorOp, SendPacket, hinit, hok, List.mem_append, hmem]

/-- Witness for no_zone_validation at the invalid zone 0x100 (truncates to
byte 0x00 on the wire). -/
theorem no_zone_validation_witness :
    (SetSingleColorOp envOkSend sReady 0 0x100 255 0 0).built =
      [singleColorPacket 0x100 255 0 0]
    ∧ Event.transferAttempt (singleColorPacket 0x100 255 0 0) 6 ∈
        (SetSingleColorOp envOkSend sReady 0 0x100 255 0 0).trace := by
  obtain ⟨hb, _, ht⟩ := no_zone_validation envOkSend sReady 0 0 0x100 255 0 0
    (fun _ => 0) (fun _ => 0) 2 (by norm_num) (by norm_num)
  exact ⟨hb, ht rfl rfl rfl⟩

/-! ### C1: claim failure does not block registration -/

/-- When every claim attempt fails, SendPacket leaves the state unchanged
and reports claim failure after the three attempts, never transferring. -/
theorem SendPacket_claimfail (env : SendEnv) (s : SessionState)
    (packet : List Nat) (size : Nat)
    (h1 : s.session_init = true) (h2 : s.dev_handle = true)
    (h3 : s.interface_claimed = false)
    (hcl : ∀ i, i < 3 → env.claim i = false) :
    SendPacket env s packet size =
      ⟨s, [Event.claimAttempt, Event.delayMs 20, Event.claimAttempt,
           Event.delayMs 20, Event.claimAttempt, Event.delayMs 20],
       SendOutcome.claimFailed⟩ := by
  have e0 := hcl 0 (by norm_num)
  have e1 := hcl 1 (by norm_num)
  have e2 := hcl 2 (by norm_num)
  have hinit : (s.session_init && s.dev_handle) = true := by simp [h1, h2]
  have hs : ({ s with interface_claimed := false } : SessionState) = s := by
    obtain ⟨a, b, c, d⟩ := s
    simp at h3
    simp [h3]
  have hclaim : ClaimInterface env.claim s =
      ⟨false, s, [Event.claimAttempt, Event.delayMs 20, Event.claimAttempt,
                  Event.delayMs 20, Event.claimAttempt, Event.delayMs 20]⟩ := by
    rw [ClaimInterface]
    simp only [hinit, Bool.not_true, Bool.false_eq_true, if_false, h3,
      if_false]
    rw [show claimLoop env.claim 0 3 =
      (false, [Event.claimAttempt, Event.delayMs 20, Event.claimAttempt,
               Event.delayMs 20, Event.claimAttempt, Event.delayMs 20]) by
        simp [claimLoop, e0, e1, e2]]
    simp [hs]
  simp [SendPacket, hinit, hclaim]

/-- Per-operation state and trace under an always-busy claim environment:
SetMultipleColors never changes the session state and never produces a
transfer attempt. -/
theorem SetMultipleColorsOp_claimfail (env : SendEnv) (s : SessionState)
    (hidx : Nat) (lights colors : Nat → Nat) (count : Nat)
    (h1 : s.session_init = true) (h2 : s.dev_handle = true)
    (h3 : s.interface_claimed = false)
    (hcl : ∀ i, i < 3 → env.claim i = false) :
    (SetMultipleColorsOp env s hidx lights colors count).st = s
    ∧ ∀ pkt sz, Event.transferAttempt pkt sz ∉
        (SetMultipleColorsOp env s hidx lights colors count).trace := by
  by_cases hrej : count = 0 ∨ 5 < count
  · simp [SetMultipleColorsOp, hrej]
  · by_cases hone : count = 1
    · subst hone
      have hsp := SendPacket_claimfail env s
        (singleColorPacket (lights 0) (RGBGetRValue (colors 0))
          (RGBGetGValue (colors 0)) (RGBGetBValue (colors 0))) 6 h1 h2 h3 hcl
      simp [SetMultipleColorsOp, SetLEDColorOp, SetSingleColorOp, hsp]
    · have hc2 : 2 ≤ count := by omega
      have hc5 : count ≤ 5 := by omega
      rw [SetMultipleColorsOp_batch env s hidx lights colors count hc2 hc5]
      have hsp := SendPacket_claimfail env s
        (batchPacket hidx lights colors count) (1 + count * 5) h1 h2 h3 hcl
      simp [hsp]

/-- The chunking loop under an always-busy claim environment: state
unchanged, no transfer attempted. -/
theorem ledColorsGo_claimfail (env : SendEnv) (leds colors : Nat → Nat)
    (count : Nat) (s : SessionState)
    (h1 : s.session_init = true) (h2 : s.dev_handle = true)
    (h3 : s.interface_claimed = false)
    (hcl : ∀ i, i < 3 → env.claim i = false) :
    ∀ fuel i hidx, (ledColorsGo env leds colors count s hidx i fuel).st = s
      ∧ ∀ pkt sz, Event.transferAttempt pkt sz ∉
          (ledColorsGo env leds colors count s hidx i fuel).trace := by
  intro fuel
  induction fuel with
  | zero => intro i hidx; simp [ledColorsGo]
  | succ fuel ih =>
    intro i hidx
    by_cases hstop : count ≤ i
    · simp [ledColorsGo, hstop]
    · obtain ⟨hst, hno⟩ := SetMultipleColorsOp_claimfail env s hidx
        (fun j => leds (i + j)) (fun j => colors (i + j))
        (if i + 5 ≤ count then 5 else count - i) h1 h2 h3 hcl
      rw [ledColorsGo]
      simp only [hstop, if_false, hst]
      constructor
      · exact (ih (i + 5) ((SetMultipleColorsOp env s hidx
          (fun j => leds (i + j)) (fun j => colors (i + j))
          (if i + 5 ≤ count then 5 else count - i)).hidx)).1
      · intro pkt sz
        simp only [List.mem_append, not_or]
        exact ⟨hno pkt sz, (ih (i + 5) _).2 pkt sz⟩

/-- C1 fails on the code: with a matching device whose open succeeds and
whose claim fails all 3 attempts, the constructed session IS initialized,
Discovery DOES register a controller, and the device handle remains open. -/
theorem detect_claimfail_cex :
    ¬(DetectRegisters (AMBXController_ctor envC1 0).st = false
      ∧ (AMBXController_ctor envC1 0).st.dev_handle = false)
    ∧ DetectRegisters (AMBXController_ctor envC1 0).st = true
    ∧ (AMBXController_ctor envC1 0).st.dev_handle = true := by
  decide

/-- C1 amended.  When the match is found, open succeeds and every claim
attempt fails, the constructor still marks the session initialized, so
Discovery registers a controller; the handle remains open (owned by the
registered controller), the interface is left unclaimed, and no transfer
is ever attempted. -/
theorem ctor_claimfail_registered (env : CtorEnv) (hidx : Nat)
    (h1 : env.init_ok = true) (h2 : env.list_ok = true)
    (h3 : env.device_present = true) (h4 : env.open_ok = true)
    (hcl : ∀ i, i < 3 → env.send.claim i = false) :
    IsInitialized (AMBXController_ctor env hidx).st = true
    ∧ DetectRegisters (AMBXController_ctor env hidx).st = true
    ∧ (AMBXController_ctor env hidx).st.dev_handle = true
    ∧ (AMBXController_ctor env hidx).st.interface_claimed = false
    ∧ ∀ pkt sz, Event.transferAttempt pkt sz ∉
        (AMBXController_ctor env hidx).trace := by
  have hgo := ledColorsGo_claimfail env.send allLeds
    (fun _ => ToRGBColor 0 0 0) 5 ⟨true, true, true, false⟩
    rfl rfl rfl hcl 5 0 hidx
  simp only [AMBXController_ctor, h1, h2, h3, h4, Bool.not_true,
    Bool.false_eq_true, if_false, Bool.and_self, Bool.not_false, if_true,
    SetAllColorsOp, SetLEDColorsOp] at hgo ⊢
  exact ⟨by simp [IsInitialized, hgo.1], by simp [DetectRegisters, IsInitialized, hgo.1],
    by simp [hgo.1], by simp [hgo.1], hgo.2⟩

/-- Witness for ctor_claimfail_registered at the concrete C1 environment. -/
theorem ctor_claimfail_registered_witness :
    DetectRegisters (AMBXController_ctor envC1 3).st = true
    ∧ (AMBXController_ctor envC1 3).st.dev_handle = true :=
  ⟨(ctor_claimfail_registered envC1 3 rfl rfl rfl rfl
      (fun _ _ => rfl)).2.1,
   (ctor_claimfail_registered envC1 3 rfl rfl rfl rfl
      (fun _ _ => rfl)).2.2.1⟩

/-! ### C4: teardown ordering -/

/-- SendPacket from a claimed session always releases the interface last,
whatever the transfer results were. -/
theorem SendPacket_claimed (env : SendEnv) (s : SessionState)
    (packet : List Nat) (size : Nat)
    (h1 : s.session_init = true) (h2 : s.dev_handle = true)
    (h3 : s.interface_claimed = true) :
    (SendPacket env s packet size).st =
      { s with interface_claimed := false }
    ∧ (SendPacket env s packet size).trace =
        (transferLoop env packet size 0 3).trace ++
          [Event.releaseInterface] := by
  have hinit : (s.session_init && s.dev_handle) = true := by simp [h1, h2]
  have hclaim : ClaimInterface env.claim s = ⟨true, s, []⟩ := by
    simp [ClaimInterface, h1, h2, h3]
  have hrel : ReleaseInterface env.release_ok s =
      ({ s with interface_claimed := false }, [Event.releaseInterface]) := by
    simp [ReleaseInterface, h1, h2, h3]
  simp [SendPacket, hinit, hclaim, hrel]

/-- The five-zone chunking loop from a claimed ready session: the interface
ends released and the trace ends with the release followed by the 5 ms
pacing delay. -/
theorem ledColorsGo_claimed5 (env : SendEnv) (leds colors : Nat → Nat)
    (s : SessionState) (hidx : Nat)
    (h1 : s.session_init = true) (h2 : s.dev_handle = true)
    (h3 : s.interface_claimed = true) :
    (ledColorsGo env leds colors 5 s hidx 0 5).st =
      { s with interface_claimed := false }
    ∧ ∃ pre, (ledColorsGo env leds colors 5 s hidx 0 5).trace =
        pre ++ Event.releaseInterface :: [Event.delayMs 5] := by
  obtain ⟨hst, htr⟩ := SendPacket_claimed env s
    (batchPacket hidx (fun j => leds (0 + j)) (fun j => colors (0 + j)) 5)
    (1 + 5 * 5) h1 h2 h3
  rw [ledColorsGo]
  simp only [Nat.le_zero, OfNat.ofNat_ne_zero, if_false]
  rw [if_pos (by norm_num : (0 : Nat) + 5 ≤ 5)]
  rw [SetMultipleColorsOp_batch env s hidx (fun j => leds (0 + j))
    (fun j => colors (0 + j)) 5 (by norm_num) (by norm_num)]
  simp only [hst, htr]
  rw [ledColorsGo]
  rw [if_pos (by norm_num : (5 : Nat) ≤ 0 + 5)]
  refine ⟨?_, (transferLoop env
    (batchPacket hidx (fun j => leds (0 + j)) (fun j => colors (0 + j)) 5)
    (1 + 5 * 5) 0 3).trace, ?_⟩
  · simp
  · simp

/-- C4.  Destroying a session that holds a claimed interface and an open
handle always attempts lights-off first, then a release of the interface
occurs, then the handle is closed, then the context is torn down, in that
order — in every environment, including one where lights-off throws; the
final state has the interface unclaimed, the handle closed and the context
destroyed. -/
theorem dtor_ordering (env : DtorEnv) (s : SessionState) (hidx : Nat)
    (h1 : s.session_init = true) (h2 : s.interface_claimed = true)
    (h3 : s.dev_handle = true) (h4 : s.usb_context = true) :
    (∃ pre post, (AMBXController_dtor env s hidx).trace =
      Event.lightsOffAttempt :: pre ++ Event.releaseInterface :: post
        ++ [Event.closeHandle, Event.exitContext])
    ∧ (AMBXController_dtor env s hidx).st.interface_claimed = false
    ∧ (AMBXController_dtor env s hidx).st.dev_handle = false
    ∧ (AMBXController_dtor env s hidx).st.usb_context = false := by
  by_cases ht : env.lightsOffThrows = true
  · refine ⟨⟨[], [], ?_⟩, ?_, ?_, ?_⟩ <;>
      simp [AMBXController_dtor, h1, h2, h3, h4, ht]
  · have ht' : env.lightsOffThrows = false := by simpa using ht
    obtain ⟨hst, pre, htr⟩ := ledColorsGo_claimed5 env.send allLeds
      (fun _ => ToRGBColor 0 0 0) s hidx h1 h3 h2
    have hall : SetAllColorsOp env.send s hidx (ToRGBColor 0 0 0) =
        ledColorsGo env.send allLeds (fun _ => ToRGBColor 0 0 0) 5 s hidx 0 5 :=
      rfl
    refine ⟨⟨pre, [Event.delayMs 5], ?_⟩, ?_, ?_, ?_⟩ <;>
      simp [AMBXController_dtor, h1, h2, h3, h4, ht', hall, hst, htr]

/-- Witness for dtor_ordering: a throwing lights-off still releases, closes
and exits in order. -/
theorem dtor_ordering_witness :
    (∃ pre post,
      (AMBXController_dtor ⟨true, envOkSend, true⟩ sClaimed 0).trace =
        Event.lightsOffAttempt :: pre ++ Event.releaseInterface :: post
          ++ [Event.closeHandle, Event.exitContext])
    ∧ (AMBXController_dtor ⟨true, envOkSend, true⟩ sClaimed 0).st.dev_handle
        = false :=
  ⟨(dtor_ordering ⟨true, envOkSend, true⟩ sClaimed 0 rfl rfl rfl rfl).1,
   (dtor_ordering ⟨true, envOkSend, true⟩ sClaimed 0 rfl rfl rfl rfl).2.2.1⟩

/-! ### C9: session invariant -/

theorem SessionInv_claim (env : Nat → Bool) (s : SessionState)
    (h : SessionInv s) : SessionInv (ClaimInterface env s).st := by
  by_cases hguard : (s.session_init && s.dev_handle) = true
  · by_cases hcl : s.interface_claimed = true
    · simpa [ClaimInterface, hguard, hcl] using h
    · have hcl' : s.interface_claimed = false := by simpa using hcl
      have hfields : s.session_init = true ∧ s.dev_handle = true := by
        simpa using hguard
      simp only [ClaimInterface, hguard, Bool.not_true, Bool.false_eq_true,
        if_false, hcl', if_false]
      intro _
      exact ⟨hfields.2, hfields.1⟩
  · have hguard' : (s.session_init && s.dev_handle) = false := by
      simpa using hguard
    simpa [ClaimInterface, hguard'] using h

theorem SessionInv_release (rel_ok : Bool) (s : SessionState)
    (h : SessionInv s) : SessionInv (ReleaseInterface rel_ok s).1 := by
  by_cases hguard :
      (s.session_init && s.dev_handle && s.interface_claimed) = true
  · simp only [ReleaseInterface, hguard, Bool.not_true, Bool.false_eq_true,
      if_false]
    intro hc
    simp at hc
  · have hguard' :
        (s.session_init && s.dev_handle && s.interface_claimed) = false := by
      simpa using hguard
    simpa [ReleaseInterface, hguard'] using h

theorem SessionInv_send (env : SendEnv) (s : SessionState)
    (packet : List Nat) (size : Nat) (h : SessionInv s) :
    SessionInv (SendPacket env s packet size).st := by
  by_cases hguard : (s.session_init && s.dev_handle) = true
  · by_cases hok : (ClaimInterface env.claim s).ok = true
    · simp only [SendPacket, hguard, Bool.not_true, Bool.false_eq_true,
        if_false, hok, Bool.not_true, if_true]
      exact SessionInv_release env.release_ok _ (SessionInv_claim env.claim s h)
    · have hok' : (ClaimInterface env.claim s).ok = false := by simpa using hok
      simp only [SendPacket, hguard, Bool.not_true, Bool.false_eq_true,
        if_false, hok']
      simpa using SessionInv_claim env.claim s h
  · have hguard' : (s.session_init && s.dev_handle) = false := by
      simpa using hguard
    simpa [SendPacket, hguard'] using h

theorem SessionInv_single (env : SendEnv) (s : SessionState)
    (hidx light r g b : Nat) (h : SessionInv s) :
    SessionInv (SetSingleColorOp env s hidx light r g b).st :=
  SessionInv_send env s _ 6 h

theorem SessionInv_multi (env : SendEnv) (s : SessionState) (hidx : Nat)
    (lights colors : Nat → Nat) (count : Nat) (h : SessionInv s) :
    SessionInv (SetMultipleColorsOp env s hidx lights colors count).st := by
  by_cases hrej : count = 0 ∨ 5 < count
  · simpa [SetMultipleColorsOp, hrej] using h
  · by_cases hone : count = 1
    · subst hone
      simp only [SetMultipleColorsOp, SetLEDColorOp]
      simpa using SessionInv_single env s hidx (lights 0) _ _ _ h
    · simp only [SetMultipleColorsOp, hrej, if_false, hone]
      simpa using SessionInv_send env s _ _ h

theorem SessionInv_ledsGo (env : SendEnv) (leds colors : Nat → Nat)
    (count : Nat) : ∀ fuel s hidx i, SessionInv s →
    SessionInv (ledColorsGo env leds colors count s hidx i fuel).st := by
  intro fuel
  induction fuel with
  | zero => intro s hidx i h; simpa [ledColorsGo] using h
  | succ fuel ih =>
    intro s hidx i h
    by_cases hstop : count ≤ i
    · simpa [ledColorsGo, hstop] using h
    · rw [ledColorsGo]
      simp only [hstop, if_false]
      exact ih _ _ _ (SessionInv_multi env s hidx _ _ _ h)

theorem SessionInv_leds (env : SendEnv) (s : SessionState) (hidx : Nat)
    (leds colors : Nat → Nat) (count : Nat) (h : SessionInv s) :
    SessionInv (SetLEDColorsOp env s hidx leds colors count).st :=
  SessionInv_ledsGo env leds colors count count s hidx 0 h

theorem SessionInv_all (env : SendEnv) (s : SessionState)
    (hidx color : Nat) (h : SessionInv s) :
    SessionInv (SetAllColorsOp env s hidx color).st :=
  SessionInv_leds env s hidx allLeds (fun _ => color) 5 h

theorem SessionInv_ctor (env : CtorEnv) (hidx : Nat) :
    SessionInv (AMBXController_ctor env hidx).st := by
  by_cases hi : env.init_ok = true
  · by_cases hl : env.list_ok = true
    · by_cases hd : (env.device_present && env.open_ok) = true
      · simp only [AMBXController_ctor, hi, hl, hd, Bool.not_true,
          Bool.false_eq_true, if_false, if_true]
        exact SessionInv_all env.send ⟨true, true, true, false⟩ hidx _
          (by intro hc; simp at hc)
      · have hd' : (env.device_present && env.open_ok) = false := by
          simpa using hd
        simp only [AMBXController_ctor, hi, hl, hd', Bool.not_true,
          Bool.false_eq_true, if_false, Bool.not_false, if_true]
        intro hc
        simp at hc
    · have hl' : env.list_ok = false := by simpa using hl
      simp only [AMBXController_ctor, hi, hl', Bool.not_true,
        Bool.false_eq_true, if_false, Bool.not_false, if_true]
      intro hc
      simp at hc
  · have hi' : env.init_ok = false := by simpa using hi
    simp only [AMBXController_ctor, hi', Bool.not_false, if_true]
    intro hc
    simp at hc

theorem SessionInv_dtor (env : DtorEnv) (s : SessionState) (hidx : Nat)
    (h : SessionInv s) :
    SessionInv (AMBXController_dtor env s hidx).st := by
  rw [AMBXController_dtor]
  set p1 : SessionState × Nat × List Event :=
    (if s.session_init then
      if env.lightsOffThrows then (s, hidx, [Event.lightsOffAttempt])
      else
        let r := SetAllColorsOp env.send s hidx (ToRGBColor 0 0 0)
        (r.st, r.hidx, Event.lightsOffAttempt :: r.trace)
    else (s, hidx, [])) with hp1
  have hinv1 : SessionInv p1.1 := by
    rw [hp1]
    by_cases hsi : s.session_init = true
    · by_cases hth : env.lightsOffThrows = true
      · simpa [hsi, hth] using h
      · have hth' : env.lightsOffThrows = false := by simpa using hth
        simpa [hsi, hth'] using SessionInv_all env.send s hidx _ h
    · have hsi' : s.session_init = false := by simpa using hsi
      simpa [hsi'] using h
  by_cases hh : p1.1.dev_handle = true
  · by_cases hc : p1.1.interface_claimed = true
    · simp only [hh, hc, if_true]
      split <;> (intro hx; simp at hx)
    · have hc' : p1.1.interface_claimed = false := by simpa using hc
      simp only [hh, hc', Bool.false_eq_true, if_false, if_true]
      split <;> (intro hx; simp at hx)
  · have hh' : p1.1.dev_handle = false := by simpa using hh
    simp only [hh', Bool.false_eq_true, if_false]
    split
    · intro hx
      simp only [SessionInv] at hinv1
      rcases hinv1 (by simpa using hx) with ⟨hdh, _⟩
      rw [hh'] at hdh
      exact absurd hdh (by simp)
    · intro hx
      have := hinv1 (by simpa using hx)
      exact ⟨by simpa [hh'] using this.1, by simpa using this.2⟩

/-- C9.  In every reachable session state, a claimed interface implies an
open handle and an initialized session: the constructor establishes the
invariant and every operation (claim, release, send, the color setters and
destruction) preserves it. -/
theorem session_invariant (s : SessionState) (h : Reachable s) :
    SessionInv s := by
  induction h with
  | ctor env hidx => exact SessionInv_ctor env hidx
  | claim env s _ ih => exact SessionInv_claim env s ih
  | release rel_ok s _ ih => exact SessionInv_release rel_ok s ih
  | send env s packet size _ ih => exact SessionInv_send env s packet size ih
  | single env s hidx light r g b _ ih =>
      exact SessionInv_single env s hidx light r g b ih
  | multi env s hidx lights colors count _ ih =>
      exact SessionInv_multi env s hidx lights colors count ih
  | leds env s hidx leds colors count _ ih =>
      exact SessionInv_leds env s hidx leds colors count ih
  | allc env s hidx color _ ih => exact SessionInv_all env s hidx color ih
  | dtor env s hidx _ ih => exact SessionInv_dtor env s hidx ih

/-- Witness for session_invariant at a concrete constructor-produced
state. -/
theorem session_invariant_witness :
    SessionInv (AMBXController_ctor envC1 0).st :=
  session_invariant _ (Reachable.ctor envC1 0)

end AMBX
